import Mathlib

/-!
# Shallow embedding of the baseline shop application

This file models the session/identity and cart subsystem of
`src/apps/baseline/shop.py` (backed by the SQLite schema created in
`src/apps/baseline/init_app_data.py`) and proves properties of it.

Modelling choices, read off the source:

* Tables are lists of rows.  `users.username` is UNIQUE, `user_login_status`
  has PRIMARY KEY `user_id`, `active_carts` has PRIMARY KEY
  `(user_id, product_id)` and CHECK `quantity > 0`.
* The local session file `.tmp_auth` is an `Option String`
  (`none` = file absent).
* `user_id` values are produced by AUTOINCREMENT and are therefore >= 1 in
  any reachable database; the Python truthiness test `if user_id:` in
  `log_out_user` is modelled as `user_id != 0`.
* In `add_item_to_cart` the single upsert statement
  `INSERT .. SELECT .. WHERE EXISTS(..) ON CONFLICT DO UPDATE .. RETURNING ..`
  behaves as follows (SQLite semantics): if the product is not active-and-present
  or the user row is missing, no row is produced and `cursor.rowcount` is `0`
  after `fetchone`; otherwise the candidate row is CHECK-checked first, so a
  non-positive `quantity` raises `IntegrityError` even when a conflicting row
  exists; otherwise the row is inserted, or on conflict the existing quantity
  is incremented (the CHECK also guards the updated value).  An
  `IntegrityError` propagates out of the `db_conn` context manager after a
  rollback, so the state is unchanged in that case.
-/

namespace Shop

/-- A row of the `users` table. -/
structure UserRow where
  user_id : Nat
  username : String
  password : String
deriving DecidableEq, Repr

/-- A row of the `user_login_status` table. -/
structure LoginStatusRow where
  user_id : Nat
  status : String
  auth_token : String
deriving DecidableEq, Repr

/-- A row of the `products` table (fields the shop logic reads). -/
structure ProductRow where
  product_id : Nat
  name : String
  is_active : Bool
deriving DecidableEq, Repr

/-- A row of the `active_carts` table. -/
structure CartLine where
  user_id : Nat
  product_id : Nat
  quantity : Int
deriving DecidableEq, Repr

/-- The whole mutable state: the four tables plus the local session file
(`AUTH_LOCAL_SESSION_FILEPATH`); `none` means the file does not exist. -/
structure AppState where
  users : List UserRow
  login_status : List LoginStatusRow
  products : List ProductRow
  active_carts : List CartLine
  auth_session_file : Option String
deriving DecidableEq, Repr

/-- Python's `str.strip()`: drop leading and trailing whitespace. -/
def pyStrip (s : String) : String :=
  ⟨((s.data.dropWhile Char.isWhitespace).reverse.dropWhile Char.isWhitespace).reverse⟩

/-- The SQL lookup
`SELECT user_id FROM user_login_status WHERE auth_token = ? AND status = 'LOGGED_IN'`
followed by `fetchone`. -/
def lookupToken (tok : String) (s : AppState) : Option Nat :=
  (s.login_status.find? (fun r => r.auth_token == tok && r.status == "LOGGED_IN")).map
    (fun r => r.user_id)

/-- `_get_logged_in_user_id`: read the session file (absent => `none`), strip
it (empty => `none`), then look the token up in `user_login_status`. -/
def getLoggedInUserId (s : AppState) : Option Nat :=
  match s.auth_session_file with
  | none => none
  | some content =>
    if pyStrip content == "" then none
    else lookupToken (pyStrip content) s

/-- The UPSERT in `log_in_user`: insert a `LOGGED_IN` row for `uid` with the
fresh token, or on conflict on `user_id` overwrite status and token. -/
def upsertLoginStatus (rows : List LoginStatusRow) (uid : Nat) (tok : String) :
    List LoginStatusRow :=
  if rows.any (fun r => r.user_id == uid) then
    rows.map (fun r =>
      if r.user_id == uid then { r with status := "LOGGED_IN", auth_token := tok } else r)
  else
    rows ++ [{ user_id := uid, status := "LOGGED_IN", auth_token := tok }]

/-- `log_in_user`:  look the user up by username; on a missing user or a
password mismatch return `false` without touching anything; otherwise upsert
the login-status row with a freshly minted token (passed in as `freshToken`,
standing for `uuid4()`) and overwrite the session file with it. -/
def logInUser (username password freshToken : String) (s : AppState) :
    Bool × AppState :=
  match s.users.find? (fun u => u.username == username) with
  | none => (false, s)
  | some u =>
    if u.password != password then (false, s)
    else
      (true,
        { s with
          login_status := upsertLoginStatus s.login_status u.user_id freshToken
          auth_session_file := some freshToken })

/-- `log_out_user`: resolve the current user, unconditionally delete the
session file, and if a user resolved (Python truthiness: `user_id != 0`)
delete that user's `user_login_status` row.  Always returns `true`. -/
def logOutUser (s : AppState) : Bool × AppState :=
  match getLoggedInUserId s with
  | some uid =>
    if uid != 0 then
      (true,
        { s with
          auth_session_file := none
          login_status := s.login_status.filter (fun r => r.user_id != uid) })
    else
      (true, { s with auth_session_file := none })
  | none => (true, { s with auth_session_file := none })

/-- `WHERE EXISTS (SELECT 1 FROM products where product_id = :pid and is_active=1)`. -/
def productActiveExists (pid : Nat) (s : AppState) : Bool :=
  s.products.any (fun p => p.product_id == pid && p.is_active)

/-- `WHERE EXISTS (SELECT 1 FROM users where user_id = :uid)`. -/
def userExists (uid : Nat) (s : AppState) : Bool :=
  s.users.any (fun u => u.user_id == uid)

/-- The cart line for `(uid, pid)`, unique by the table's primary key. -/
def findCartLine (uid pid : Nat) (s : AppState) : Option CartLine :=
  s.active_carts.find? (fun l => l.user_id == uid && l.product_id == pid)

/-- Outcome of `add_item_to_cart` as observable at the console / exception
boundary. -/
inductive AddResult where
  /-- "Cannot add item to cart. REASON: User is not logged in." -/
  | notLoggedIn
  /-- rowcount 0: "product_id=.. is inactive or does not exist";
  the reported current quantity is 0. -/
  | rejected
  /-- success, reporting the post-update quantity from RETURNING. -/
  | ok (newQuantity : Int)
  /-- `sqlite3.IntegrityError` (CHECK `quantity > 0`), propagated after
  rollback. -/
  | checkFailed
deriving DecidableEq, Repr

/-- `add_item_to_cart`: resolve identity, then run the single upsert
statement described in the header comment. -/
def addItemToCart (pid : Nat) (quantity : Int) (s : AppState) :
    AddResult × AppState :=
  match getLoggedInUserId s with
  | none => (.notLoggedIn, s)
  | some uid =>
    if productActiveExists pid s && userExists uid s then
      if quantity ≤ 0 then (.checkFailed, s)
      else
        match findCartLine uid pid s with
        | some l =>
          if l.quantity + quantity ≤ 0 then (.checkFailed, s)
          else
            (.ok (l.quantity + quantity),
              { s with
                active_carts := s.active_carts.map (fun c =>
                  if c.user_id == uid && c.product_id == pid then
                    { c with quantity := c.quantity + quantity }
                  else c) })
        | none =>
          (.ok quantity,
            { s with active_carts := s.active_carts ++ [⟨uid, pid, quantity⟩] })
    else (.rejected, s)

/-- Outcome of `remove_item_from_cart`. -/
inductive RemoveResult where
  | notLoggedIn
  /-- rowcount > 0: "Removed all items ...". -/
  | removed
  /-- rowcount 0: "No instances of item ... to remove". -/
  | noop
deriving DecidableEq, Repr

/-- `remove_item_from_cart`: resolve identity, then
`DELETE FROM active_carts WHERE user_id = .. AND product_id = ..`. -/
def removeItemFromCart (pid : Nat) (s : AppState) : RemoveResult × AppState :=
  match getLoggedInUserId s with
  | none => (.notLoggedIn, s)
  | some uid =>
    if 0 < s.active_carts.countP (fun l => l.user_id == uid && l.product_id == pid) then
      (.removed, { s with
        active_carts := s.active_carts.filter (fun l => !(l.user_id == uid && l.product_id == pid)) })
    else
      (.noop, { s with
        active_carts := s.active_carts.filter (fun l => !(l.user_id == uid && l.product_id == pid)) })

/-- Outcome of `update_item_in_cart`. -/
inductive UpdateResult where
  | notLoggedIn
  /-- "Cannot update item quantity to less than 1 item." -/
  | quantityTooSmall
  /-- RETURNING produced a row: success with the new quantity. -/
  | updated (newQuantity : Int)
  /-- RETURNING produced no row: "No instances of item ...". -/
  | noop
deriving DecidableEq, Repr

/-- `update_item_in_cart`: resolve identity, reject `quantity < 1` locally,
then `UPDATE active_carts SET quantity = .. WHERE user_id = .. AND
product_id = .. RETURNING quantity`. -/
def updateItemInCart (pid : Nat) (quantity : Int) (s : AppState) :
    UpdateResult × AppState :=
  match getLoggedInUserId s with
  | none => (.notLoggedIn, s)
  | some uid =>
    if quantity < 1 then (.quantityTooSmall, s)
    else
      match findCartLine uid pid s with
      | none => (.noop, s)
      | some _ =>
        (.updated quantity,
          { s with
            active_carts := s.active_carts.map (fun c =>
              if c.user_id == uid && c.product_id == pid then
                { c with quantity := quantity }
              else c) })

/-! ## Login/logout traces (for the session-row invariant) -/

/-- One CLI invocation of the session subsystem.  `freshToken` stands for the
`uuid4()` value minted if the login succeeds. -/
inductive Op where
  | login (username password freshToken : String)
  | logout
deriving DecidableEq, Repr

/-- State effect of one operation. -/
def execOp : Op → AppState → AppState
  | .login un pw tok, s => (logInUser un pw tok s).2
  | .logout, s => (logOutUser s).2

/-- Run a sequence of operations left to right. -/
def execOps : List Op → AppState → AppState
  | [], s => s
  | op :: ops, s => execOps ops (execOp op s)

/-- Whether a `user_login_status` row for user `u` exists. -/
def rowExistsFor (u : Nat) (s : AppState) : Bool :=
  s.login_status.any (fun r => r.user_id == u)

/-- Whether a `login un pw _` call executed in state `s` succeeds and is a
login of user `u` (the username lookup resolves to `u` and the password
matches). -/
def loginResolvesTo (u : Nat) (username password : String) (s : AppState) : Bool :=
  match s.users.find? (fun r => r.username == username) with
  | some r => r.password == password && r.user_id == u
  | none => false

/-- Spec-side notion of "user `u` has an active session", computed over the
trace: a successful login for `u` activates it, a logout performed while the
session file resolved to `u` deactivates it. -/
def specActiveAux (u : Nat) : List Op → AppState → Bool → Bool
  | [], _, active => active
  | op :: ops, s, active =>
    let active' :=
      match op with
      | .login un pw _ => if loginResolvesTo u un pw s then true else active
      | .logout => if getLoggedInUserId s == some u then false else active
    specActiveAux u ops (execOp op s) active'

/-- "U has an active session after `ops`", starting from a state with no
sessions. -/
def hasActiveSession (u : Nat) (ops : List Op) (s0 : AppState) : Bool :=
  specActiveAux u ops s0 false

/-! ## Derived observations used in theorem statements -/

/-- Quantity of the cart line for `(uid, pid)`, `0` when no line exists. -/
def cartQuantity (uid pid : Nat) (s : AppState) : Int :=
  match findCartLine uid pid s with
  | some l => l.quantity
  | none => 0

/-- The table CHECK constraint `quantity > 0`, as a property of a state. -/
def cartQuantitiesPositive (s : AppState) : Prop :=
  ∀ l ∈ s.active_carts, 0 < l.quantity

/-- Everything except the cart line keyed `(uid, pid)` is unchanged between
`s` and `s'`: the three other tables, the session file, and every cart line
with a different key. -/
def framePreserved (uid pid : Nat) (s s' : AppState) : Prop :=
  s'.users = s.users ∧ s'.login_status = s.login_status ∧
  s'.products = s.products ∧ s'.auth_session_file = s.auth_session_file ∧
  s'.active_carts.filter (fun l => !(l.user_id == uid && l.product_id == pid)) =
    s.active_carts.filter (fun l => !(l.user_id == uid && l.product_id == pid))

/-! ## Concrete states (mirroring the seed data of `init_app_data.py`) -/

/-- The seeded database with user 1 ("joe") logged in with token "tok1" and
an empty cart.  Product 2 is flagged inactive to exercise the gate. -/
def demoState : AppState :=
  { users := [⟨1, "joe", "admin1234"⟩, ⟨2, "emily", "ilovejoe"⟩]
    login_status := [⟨1, "LOGGED_IN", "tok1"⟩]
    products := [⟨1, "Classic T-Shirt", true⟩, ⟨2, "Coffee Mug", false⟩]
    active_carts := []
    auth_session_file := some "tok1" }

/-- Like `demoState` but product 1 has been deactivated after a cart line of
2 units was created for it, and user 1 is logged in. -/
def inactiveLineState : AppState :=
  { users := [⟨1, "joe", "admin1234"⟩, ⟨2, "emily", "ilovejoe"⟩]
    login_status := [⟨1, "LOGGED_IN", "tok1"⟩]
    products := [⟨1, "Classic T-Shirt", false⟩, ⟨2, "Coffee Mug", false⟩]
    active_carts := [⟨1, 1, 2⟩]
    auth_session_file := some "tok1" }

/-- Like `demoState` but with an existing cart line of 2 units of the active
product 1. -/
def activeLineState : AppState :=
  { users := [⟨1, "joe", "admin1234"⟩, ⟨2, "emily", "ilovejoe"⟩]
    login_status := [⟨1, "LOGGED_IN", "tok1"⟩]
    products := [⟨1, "Classic T-Shirt", true⟩, ⟨2, "Coffee Mug", false⟩]
    active_carts := [⟨1, 1, 2⟩]
    auth_session_file := some "tok1" }

/-- The freshly initialised database: seed users and products, nobody logged
in, no session file. -/
def freshState : AppState :=
  { users := [⟨1, "joe", "admin1234"⟩, ⟨2, "emily", "ilovejoe"⟩]
    login_status := []
    products := [⟨1, "Classic T-Shirt", true⟩, ⟨2, "Coffee Mug", false⟩]
    active_carts := []
    auth_session_file := none }

/-! ## Helper lemmas about the login-status table -/

theorem any_map_userid (rows : List LoginStatusRow) (f : LoginStatusRow → LoginStatusRow)
    (hf : ∀ r, (f r).user_id = r.user_id) (u : Nat) :
    ((rows.map f).any (fun r => r.user_id == u)) = rows.any (fun r => r.user_id == u) := by
  induction rows with
  | nil => rfl
  | cons r rs ih => simp [List.any_cons, hf, ih]

theorem upsertLoginStatus_any (rows : List LoginStatusRow) (w : Nat) (tok : String) (u : Nat) :
    ((upsertLoginStatus rows w tok).any (fun r => r.user_id == u)) =
      ((w == u) || rows.any (fun r => r.user_id == u)) := by
  unfold upsertLoginStatus
  by_cases hex : rows.any (fun r => r.user_id == w) = true
  · rw [if_pos hex, any_map_userid]
    · by_cases hwu : w = u
      · subst hwu
        simp [hex]
      · have hbeq : (w == u) = false := by simp [hwu]
        simp [hbeq]
    · intro r
      by_cases h : (r.user_id == w) = true <;> simp [h]
  · rw [if_neg hex]
    simp [List.any_append, List.any_cons, Bool.or_comm]

theorem any_filter_ne_userid (rows : List LoginStatusRow) (w u : Nat) (h : w ≠ u) :
    ((rows.filter (fun r => r.user_id != w)).any (fun r => r.user_id == u)) =
      rows.any (fun r => r.user_id == u) := by
  induction rows with
  | nil => rfl
  | cons r rs ih =>
    by_cases hr : r.user_id = w
    · have h1 : (r.user_id != w) = false := by simp [hr]
      have h2 : (r.user_id == u) = false := by simp [hr, h]
      simp [List.filter_cons, h1, h2, ih, List.any_cons]
    · have h1 : (r.user_id != w) = true := by simp [hr]
      simp [List.filter_cons, h1, ih, List.any_cons]

theorem any_filter_self_userid (rows : List LoginStatusRow) (u : Nat) :
    ((rows.filter (fun r => r.user_id != u)).any (fun r => r.user_id == u)) = false := by
  induction rows with
  | nil => rfl
  | cons r rs ih =>
    by_cases hr : r.user_id = u
    · have h1 : (r.user_id != u) = false := by simp [hr]
      simp [List.filter_cons, h1, ih]
    · have h1 : (r.user_id != u) = true := by simp [hr]
      have h2 : (r.user_id == u) = false := by simp [hr]
      simp [List.filter_cons, h1, h2, ih, List.any_cons]

theorem upsertLoginStatus_mem (rows : List LoginStatusRow) (w : Nat) (tok : String)
    (r : LoginStatusRow) (hr : r ∈ upsertLoginStatus rows w tok) :
    (r.user_id = w ∧ r.status = "LOGGED_IN" ∧ r.auth_token = tok) ∨
      (r ∈ rows ∧ r.user_id ≠ w) := by
  unfold upsertLoginStatus at hr
  by_cases hex : rows.any (fun r => r.user_id == w) = true
  · rw [if_pos hex] at hr
    obtain ⟨r0, hr0, heq⟩ := List.mem_map.mp hr
    by_cases h : r0.user_id = w
    · rw [if_pos (by simp [h])] at heq
      subst heq
      exact Or.inl ⟨h, rfl, rfl⟩
    · rw [if_neg (by simp [h])] at heq
      subst heq
      exact Or.inr ⟨hr0, h⟩
  · rw [if_neg hex] at hr
    rcases List.mem_append.mp hr with h | h
    · refine Or.inr ⟨h, fun hw => hex ?_⟩
      exact List.any_eq_true.mpr ⟨r, h, by simp [hw]⟩
    · rw [List.mem_singleton.mp h]
      exact Or.inl ⟨rfl, rfl, rfl⟩

theorem lookupToken_mem (tok : String) (s : AppState) (w : Nat)
    (h : lookupToken tok s = some w) :
    ∃ r ∈ s.login_status, r.user_id = w := by
  unfold lookupToken at h
  cases hf : s.login_status.find? (fun r => r.auth_token == tok && r.status == "LOGGED_IN") with
  | none => rw [hf] at h; cases h
  | some r =>
    rw [hf] at h
    exact ⟨r, List.mem_of_find?_eq_some hf, Option.some.inj h⟩

/-! ## Branch equations for the session operations -/

theorem getLoggedInUserId_no_file (s : AppState) (h : s.auth_session_file = none) :
    getLoggedInUserId s = none := by
  unfold getLoggedInUserId; rw [h]

theorem getLoggedInUserId_file (s : AppState) (c : String)
    (h : s.auth_session_file = some c) :
    getLoggedInUserId s = if pyStrip c == "" then none else lookupToken (pyStrip c) s := by
  unfold getLoggedInUserId; rw [h]

theorem getLoggedInUserId_congr (s s' : AppState)
    (hf : s'.auth_session_file = s.auth_session_file)
    (hl : s'.login_status = s.login_status) :
    getLoggedInUserId s' = getLoggedInUserId s := by
  unfold getLoggedInUserId lookupToken
  rw [hf, hl]

theorem getLoggedInUserId_mem (s : AppState) (w : Nat)
    (h : getLoggedInUserId s = some w) :
    ∃ r ∈ s.login_status, r.user_id = w := by
  cases hs : s.auth_session_file with
  | none => rw [getLoggedInUserId_no_file s hs] at h; cases h
  | some c =>
    rw [getLoggedInUserId_file s c hs] at h
    by_cases hc : (pyStrip c == "") = true
    · rw [if_pos hc] at h; cases h
    · rw [if_neg hc] at h
      exact lookupToken_mem _ _ _ h

theorem logInUser_user_absent (un pw tok : String) (s : AppState)
    (h : s.users.find? (fun r => r.username == un) = none) :
    logInUser un pw tok s = (false, s) := by
  unfold logInUser; rw [h]

theorem logInUser_wrong_password (un pw tok : String) (s : AppState) (r : UserRow)
    (h : s.users.find? (fun r => r.username == un) = some r) (hp : r.password ≠ pw) :
    logInUser un pw tok s = (false, s) := by
  unfold logInUser
  rw [h]
  dsimp only
  rw [if_pos (by simp [hp])]

theorem logInUser_success (un pw tok : String) (s : AppState) (r : UserRow)
    (h : s.users.find? (fun r => r.username == un) = some r) (hp : r.password = pw) :
    logInUser un pw tok s =
      (true,
        { s with
          login_status := upsertLoginStatus s.login_status r.user_id tok
          auth_session_file := some tok }) := by
  unfold logInUser
  rw [h]
  dsimp only
  rw [if_neg (by simp [hp])]

theorem logOutUser_anonymous (s : AppState) (h : getLoggedInUserId s = none) :
    logOutUser s = (true, { s with auth_session_file := none }) := by
  unfold logOutUser; rw [h]

theorem logOutUser_resolved (s : AppState) (w : Nat)
    (h : getLoggedInUserId s = some w) (hw : w ≠ 0) :
    logOutUser s =
      (true,
        { s with
          auth_session_file := none
          login_status := s.login_status.filter (fun r => r.user_id != w) }) := by
  unfold logOutUser
  rw [h]
  dsimp only
  rw [if_pos (by simp [hw])]

theorem logOutUser_resolved_zero (s : AppState) (h : getLoggedInUserId s = some 0) :
    logOutUser s = (true, { s with auth_session_file := none }) := by
  unfold logOutUser
  rw [h]
  dsimp only
  rw [if_neg (by simp)]

theorem loginResolvesTo_user_absent (u : Nat) (un pw : String) (s : AppState)
    (h : s.users.find? (fun r => r.username == un) = none) :
    loginResolvesTo u un pw s = false := by
  unfold loginResolvesTo; rw [h]

theorem loginResolvesTo_user_found (u : Nat) (un pw : String) (s : AppState) (r : UserRow)
    (h : s.users.find? (fun r => r.username == un) = some r) :
    loginResolvesTo u un pw s = (r.password == pw && r.user_id == u) := by
  unfold loginResolvesTo; rw [h]

/-! ## Step lemmas for the session state machine -/

theorem execOp_users (op : Op) (s : AppState) : (execOp op s).users = s.users := by
  cases op with
  | login un pw tok =>
    simp only [execOp]
    cases hf : s.users.find? (fun r => r.username == un) with
    | none => rw [logInUser_user_absent un pw tok s hf]
    | some r =>
      by_cases hp : r.password = pw
      · rw [logInUser_success un pw tok s r hf hp]
      · rw [logInUser_wrong_password un pw tok s r hf hp]
  | logout =>
    simp only [execOp]
    cases hres : getLoggedInUserId s with
    | none => rw [logOutUser_anonymous s hres]
    | some w =>
      by_cases hw : w = 0
      · subst hw; rw [logOutUser_resolved_zero s hres]
      · rw [logOutUser_resolved s w hres hw]

theorem execOp_login_status_ne_zero (op : Op) (s : AppState)
    (husers : ∀ r ∈ s.users, r.user_id ≠ 0)
    (hrows : ∀ r ∈ s.login_status, r.user_id ≠ 0) :
    ∀ r ∈ (execOp op s).login_status, r.user_id ≠ 0 := by
  cases op with
  | login un pw tok =>
    simp only [execOp]
    cases hf : s.users.find? (fun r => r.username == un) with
    | none => rw [logInUser_user_absent un pw tok s hf]; exact hrows
    | some w =>
      by_cases hp : w.password = pw
      · rw [logInUser_success un pw tok s w hf hp]
        intro r hr
        rcases upsertLoginStatus_mem _ _ _ r hr with ⟨h1, _, _⟩ | ⟨h1, _⟩
        · rw [h1]
          exact husers w (List.mem_of_find?_eq_some hf)
        · exact hrows r h1
      · rw [logInUser_wrong_password un pw tok s w hf hp]; exact hrows
  | logout =>
    simp only [execOp]
    cases hres : getLoggedInUserId s with
    | none => rw [logOutUser_anonymous s hres]; exact hrows
    | some w =>
      by_cases hw : w = 0
      · subst hw; rw [logOutUser_resolved_zero s hres]; exact hrows
      · rw [logOutUser_resolved s w hres hw]
        intro r hr
        exact hrows r (List.mem_of_mem_filter hr)

theorem rowExistsFor_login (u : Nat) (un pw tok : String) (s : AppState) :
    rowExistsFor u (execOp (.login un pw tok) s) =
      (if loginResolvesTo u un pw s then true else rowExistsFor u s) := by
  simp only [execOp]
  cases hf : s.users.find? (fun r => r.username == un) with
  | none =>
    rw [logInUser_user_absent un pw tok s hf, loginResolvesTo_user_absent u un pw s hf]
    simp
  | some r =>
    rw [loginResolvesTo_user_found u un pw s r hf]
    by_cases hp : r.password = pw
    · rw [logInUser_success un pw tok s r hf hp]
      have h2 : (r.password == pw) = true := by simp [hp]
      simp only [rowExistsFor, h2, Bool.true_and]
      rw [upsertLoginStatus_any]
      cases hu : r.user_id == u <;> simp
    · rw [logInUser_wrong_password un pw tok s r hf hp]
      have h2 : (r.password == pw) = false := by simp [hp]
      simp [h2]

theorem rowExistsFor_logout (u : Nat) (s : AppState)
    (hrows : ∀ r ∈ s.login_status, r.user_id ≠ 0) :
    rowExistsFor u (execOp .logout s) =
      (if getLoggedInUserId s == some u then false else rowExistsFor u s) := by
  simp only [execOp]
  cases hres : getLoggedInUserId s with
  | none =>
    rw [logOutUser_anonymous s hres]
    simp [rowExistsFor]
  | some w =>
    have hw0 : w ≠ 0 := by
      obtain ⟨r, hrmem, hrw⟩ := getLoggedInUserId_mem s w hres
      exact hrw ▸ hrows r hrmem
    rw [logOutUser_resolved s w hres hw0]
    by_cases hwu : w = u
    · subst hwu
      simp [rowExistsFor, any_filter_self_userid]
    · have hne : ((some w : Option Nat) == some u) = false := by simp [hwu]
      simp [rowExistsFor, hne, any_filter_ne_userid _ _ _ hwu]

theorem specActiveAux_eq_rowExists (u : Nat) (ops : List Op) :
    ∀ (s : AppState) (active : Bool),
      (∀ r ∈ s.users, r.user_id ≠ 0) →
      (∀ r ∈ s.login_status, r.user_id ≠ 0) →
      rowExistsFor u s = active →
      rowExistsFor u (execOps ops s) = specActiveAux u ops s active := by
  induction ops with
  | nil =>
    intro s active _ _ h
    simpa [execOps, specActiveAux] using h
  | cons op ops ih =>
    intro s active husers hrows hact
    simp only [execOps, specActiveAux]
    apply ih
    · rw [execOp_users]; exact husers
    · exact execOp_login_status_ne_zero op s husers hrows
    · cases op with
      | login un pw tok => rw [rowExistsFor_login, hact]
      | logout => rw [rowExistsFor_logout u s hrows, hact]

/-! ## Claim theorems -/

/-- C1: for every user `u` and every finite sequence of login/logout
operations run from a freshly initialised store (empty `user_login_status`,
AUTOINCREMENT user ids, hence nonzero), a `user_login_status` row for `u`
exists after the sequence iff `u` has an active session: the last successful
operation affecting `u`'s session was a successful login not followed by a
logout performed while `u`'s token resolved. -/
theorem session_row_iff_active_session (u : Nat) (ops : List Op) (s0 : AppState)
    (husers : ∀ r ∈ s0.users, r.user_id ≠ 0)
    (hinit : s0.login_status = []) :
    rowExistsFor u (execOps ops s0) = hasActiveSession u ops s0 := by
  apply specActiveAux_eq_rowExists u ops s0 false husers
  · intro r hr
    rw [hinit] at hr
    cases hr
  · simp [rowExistsFor, hinit]

/-- Witness for C1: a concrete trace (joe logs in, then a second login for
joe, then logout) on the seeded fresh database. -/
theorem session_row_iff_active_session_witness :
    (∀ r ∈ freshState.users, r.user_id ≠ 0) ∧ freshState.login_status = [] ∧
      (rowExistsFor 1
          (execOps [.login "joe" "admin1234" "t1", .login "joe" "admin1234" "t2", .logout]
            freshState) =
        hasActiveSession 1
          [.login "joe" "admin1234" "t1", .login "joe" "admin1234" "t2", .logout]
          freshState) :=
  ⟨by decide, rfl,
    session_row_iff_active_session 1
      [.login "joe" "admin1234" "t1", .login "joe" "admin1234" "t2", .logout]
      freshState (by decide) rfl⟩

theorem set_file_none_eq (s : AppState) (h : s.auth_session_file = none) :
    { s with auth_session_file := none } = s := by
  cases s
  simp only at h
  rw [h]

theorem logOutUser_file_none (s : AppState) : (logOutUser s).2.auth_session_file = none := by
  cases hres : getLoggedInUserId s with
  | none => rw [logOutUser_anonymous s hres]
  | some w =>
    by_cases hw : w = 0
    · subst hw; rw [logOutUser_resolved_zero s hres]
    · rw [logOutUser_resolved s w hres hw]

theorem logOutUser_fst (s : AppState) : (logOutUser s).1 = true := by
  cases hres : getLoggedInUserId s with
  | none => rw [logOutUser_anonymous s hres]
  | some w =>
    by_cases hw : w = 0
    · subst hw; rw [logOutUser_resolved_zero s hres]
    · rw [logOutUser_resolved s w hres hw]

/-- C4: `log_out_user` returns `true` from every state, and it is idempotent:
a second logout returns `true` again and changes nothing (neither the
login-status table nor the session file). -/
theorem logout_true_and_idempotent (s : AppState) :
    (logOutUser s).1 = true ∧
      logOutUser (logOutUser s).2 = (true, (logOutUser s).2) := by
  refine ⟨logOutUser_fst s, ?_⟩
  have hres2 : getLoggedInUserId (logOutUser s).2 = none :=
    getLoggedInUserId_no_file _ (logOutUser_file_none s)
  rw [logOutUser_anonymous _ hres2, set_file_none_eq _ (logOutUser_file_none s)]

/-- C5: a login whose username matches no user, or whose supplied password
differs from the stored one, returns `false` and leaves the entire state
(including the `user_login_status` table and the session token file)
untouched. -/
theorem failed_login_leaves_state_untouched (s : AppState) (un pw tok : String)
    (h : s.users.find? (fun r => r.username == un) = none ∨
      ∃ r, s.users.find? (fun r => r.username == un) = some r ∧ r.password ≠ pw) :
    logInUser un pw tok s = (false, s) := by
  rcases h with h | ⟨r, hf, hp⟩
  · exact logInUser_user_absent un pw tok s h
  · exact logInUser_wrong_password un pw tok s r hf hp

/-- Witness for C5: `login("joe", "wrong")` on the seeded store. -/
theorem failed_login_leaves_state_untouched_witness :
    (demoState.users.find? (fun r => r.username == "joe") = none ∨
      ∃ r, demoState.users.find? (fun r => r.username == "joe") = some r ∧
        r.password ≠ "wrong") ∧
      logInUser "joe" "wrong" "t9" demoState = (false, demoState) :=
  ⟨Or.inr ⟨⟨1, "joe", "admin1234"⟩, by decide, by decide⟩,
    failed_login_leaves_state_untouched demoState "joe" "wrong" "t9"
      (Or.inr ⟨⟨1, "joe", "admin1234"⟩, by decide, by decide⟩)⟩

/-- C6: identity resolution returns no identity when the session file is
absent, or its stripped content is empty, or the token matches no
`LOGGED_IN` row; when a matching row exists it returns that row's
`user_id`.  It is a total function of the state (it cannot raise) and, being
modelled as a pure read (`State → Option Nat`), performs no writes. -/
theorem resolve_current_user_contract (s : AppState) :
    (s.auth_session_file = none → getLoggedInUserId s = none) ∧
    (∀ c, s.auth_session_file = some c → pyStrip c = "" →
      getLoggedInUserId s = none) ∧
    (∀ c, s.auth_session_file = some c → pyStrip c ≠ "" →
      s.login_status.find?
          (fun r => r.auth_token == pyStrip c && r.status == "LOGGED_IN") = none →
      getLoggedInUserId s = none) ∧
    (∀ c r, s.auth_session_file = some c → pyStrip c ≠ "" →
      s.login_status.find?
          (fun r => r.auth_token == pyStrip c && r.status == "LOGGED_IN") = some r →
      getLoggedInUserId s = some r.user_id) := by
  refine ⟨fun h => getLoggedInUserId_no_file s h, ?_, ?_, ?_⟩
  · intro c hc ht
    rw [getLoggedInUserId_file s c hc, if_pos (by simp [ht])]
  · intro c hc ht hfind
    rw [getLoggedInUserId_file s c hc, if_neg (by simp [ht])]
    unfold lookupToken
    rw [hfind]
    rfl
  · intro c r hc ht hfind
    rw [getLoggedInUserId_file s c hc, if_neg (by simp [ht])]
    unfold lookupToken
    rw [hfind]
    rfl

/-- Witness for C6: resolving on the seeded store with a live token. -/
theorem resolve_current_user_contract_witness :
    demoState.auth_session_file = some "tok1" ∧ pyStrip "tok1" ≠ "" ∧
      demoState.login_status.find?
          (fun r => r.auth_token == pyStrip "tok1" && r.status == "LOGGED_IN") =
        some ⟨1, "LOGGED_IN", "tok1"⟩ ∧
      getLoggedInUserId demoState = some 1 :=
  ⟨rfl, by decide, by decide,
    (resolve_current_user_contract demoState).2.2.2 "tok1" ⟨1, "LOGGED_IN", "tok1"⟩
      rfl (by decide) (by decide)⟩

/-! ## Generic list lemmas for the cart table -/

theorem find?_append_none {α : Type} (p : α → Bool) (l1 l2 : List α)
    (h : l1.find? p = none) : (l1 ++ l2).find? p = l2.find? p := by
  induction l1 with
  | nil => rfl
  | cons x xs ih =>
    cases hx : p x with
    | true => rw [List.find?_cons_of_pos _ hx] at h; cases h
    | false =>
      rw [List.find?_cons_of_neg _ (by simp [hx])] at h
      rw [List.cons_append, List.find?_cons_of_neg _ (by simp [hx])]
      exact ih h

theorem find?_map_key {α : Type} (p : α → Bool) (g : α → α) (l : List α)
    (hg : ∀ x, p (g x) = p x) :
    (l.map (fun x => if p x then g x else x)).find? p = (l.find? p).map g := by
  induction l with
  | nil => rfl
  | cons x xs ih =>
    cases hx : p x with
    | true =>
      rw [List.map_cons, if_pos hx, List.find?_cons_of_pos _ (by rw [hg x, hx]),
        List.find?_cons_of_pos _ hx]
      rfl
    | false =>
      rw [List.map_cons, if_neg (by simp [hx]), List.find?_cons_of_neg _ (by simp [hx]),
        List.find?_cons_of_neg _ (by simp [hx])]
      exact ih

/-- Changing only the cart table never changes identity resolution. -/
theorem getLoggedInUserId_set_carts (s : AppState) (X : List CartLine) :
    getLoggedInUserId { s with active_carts := X } = getLoggedInUserId s :=
  getLoggedInUserId_congr s _ rfl rfl

/-! ## Branch equations for `add_item_to_cart` -/

theorem addItemToCart_anonymous (pid : Nat) (q : Int) (s : AppState)
    (h : getLoggedInUserId s = none) :
    addItemToCart pid q s = (.notLoggedIn, s) := by
  unfold addItemToCart; rw [h]

theorem addItemToCart_gate_rejects (pid : Nat) (q : Int) (s : AppState) (uid : Nat)
    (h : getLoggedInUserId s = some uid)
    (hg : (productActiveExists pid s && userExists uid s) = false) :
    addItemToCart pid q s = (.rejected, s) := by
  unfold addItemToCart
  rw [h]
  dsimp only
  rw [if_neg (by simp [hg])]

theorem addItemToCart_check_violation (pid : Nat) (q : Int) (s : AppState) (uid : Nat)
    (h : getLoggedInUserId s = some uid)
    (hg : (productActiveExists pid s && userExists uid s) = true)
    (hq : q ≤ 0) :
    addItemToCart pid q s = (.checkFailed, s) := by
  unfold addItemToCart
  rw [h]
  dsimp only
  rw [if_pos hg, if_pos hq]

theorem addItemToCart_new_line (pid : Nat) (q : Int) (s : AppState) (uid : Nat)
    (h : getLoggedInUserId s = some uid)
    (hg : (productActiveExists pid s && userExists uid s) = true)
    (hq : 0 < q) (hline : findCartLine uid pid s = none) :
    addItemToCart pid q s =
      (.ok q, { s with active_carts := s.active_carts ++ [⟨uid, pid, q⟩] }) := by
  unfold addItemToCart
  rw [h]
  dsimp only
  rw [if_pos hg, if_neg (by omega), hline]

theorem addItemToCart_increment (pid : Nat) (q : Int) (s : AppState) (uid : Nat)
    (l : CartLine)
    (h : getLoggedInUserId s = some uid)
    (hg : (productActiveExists pid s && userExists uid s) = true)
    (hq : ¬ q ≤ 0) (hline : findCartLine uid pid s = some l)
    (hlq : ¬ l.quantity + q ≤ 0) :
    addItemToCart pid q s =
      (.ok (l.quantity + q),
        { s with
          active_carts := s.active_carts.map (fun c =>
            if c.user_id == uid && c.product_id == pid then
              { c with quantity := c.quantity + q }
            else c) }) := by
  unfold addItemToCart
  rw [h]
  dsimp only
  rw [if_pos hg, if_neg hq, hline]
  dsimp only
  rw [if_neg hlq]

theorem findCartLine_after_new_line (pid : Nat) (q : Int) (s : AppState) (uid : Nat)
    (h : getLoggedInUserId s = some uid)
    (hg : (productActiveExists pid s && userExists uid s) = true)
    (hq : 0 < q) (hline : findCartLine uid pid s = none) :
    findCartLine uid pid (addItemToCart pid q s).2 = some ⟨uid, pid, q⟩ := by
  rw [addItemToCart_new_line pid q s uid h hg hq hline]
  unfold findCartLine at hline ⊢
  dsimp only
  rw [find?_append_none _ _ _ hline]
  rw [List.find?_cons_of_pos _ (by simp)]

theorem findCartLine_after_increment (pid : Nat) (q : Int) (s : AppState) (uid : Nat)
    (l : CartLine)
    (h : getLoggedInUserId s = some uid)
    (hg : (productActiveExists pid s && userExists uid s) = true)
    (hq : 0 < q) (hline : findCartLine uid pid s = some l) (hpos : 0 < l.quantity) :
    findCartLine uid pid (addItemToCart pid q s).2 = some ⟨uid, pid, l.quantity + q⟩ := by
  have hp := List.find?_some hline
  rw [addItemToCart_increment pid q s uid l h hg (by omega) hline (by omega)]
  unfold findCartLine at hline ⊢
  dsimp only
  rw [find?_map_key (fun c : CartLine => c.user_id == uid && c.product_id == pid)
      (fun c : CartLine => { c with quantity := c.quantity + q })
      s.active_carts (fun x => rfl)]
  rw [hline]
  simp only [Bool.and_eq_true, beq_iff_eq] at hp
  obtain ⟨h1, h2⟩ := hp
  cases l with
  | mk lu lp lq =>
    simp only at h1 h2
    subst h1; subst h2
    rfl

/-- C2: for a logged-in user and an active product with no pre-existing cart
line, `add(P, q1)` then `add(P, q2)` reports the post-update quantity each
time (`q1`, then `q1 + q2`) and leaves the line holding `q1 + q2` — the
second add increments rather than overwrites. -/
theorem add_twice_accumulates (s : AppState) (uid pid : Nat) (q1 q2 : Int)
    (hres : getLoggedInUserId s = some uid)
    (hprod : productActiveExists pid s = true)
    (huser : userExists uid s = true)
    (hnoline : findCartLine uid pid s = none)
    (hq1 : 0 < q1) (hq2 : 0 < q2) :
    (addItemToCart pid q1 s).1 = .ok q1 ∧
      (addItemToCart pid q2 (addItemToCart pid q1 s).2).1 = .ok (q1 + q2) ∧
      findCartLine uid pid (addItemToCart pid q2 (addItemToCart pid q1 s).2).2 =
        some ⟨uid, pid, q1 + q2⟩ := by
  have hg : (productActiveExists pid s && userExists uid s) = true := by
    rw [hprod, huser]; rfl
  have hadd1 := addItemToCart_new_line pid q1 s uid hres hg hq1 hnoline
  have hs1 : (addItemToCart pid q1 s).2 =
      { s with active_carts := s.active_carts ++ [⟨uid, pid, q1⟩] } :=
    congrArg Prod.snd hadd1
  have hres1 : getLoggedInUserId (addItemToCart pid q1 s).2 = some uid := by
    rw [hs1, getLoggedInUserId_set_carts, hres]
  have hg1 : (productActiveExists pid (addItemToCart pid q1 s).2 &&
      userExists uid (addItemToCart pid q1 s).2) = true := by
    rw [hs1]; exact hg
  have hline1 : findCartLine uid pid (addItemToCart pid q1 s).2 = some ⟨uid, pid, q1⟩ :=
    findCartLine_after_new_line pid q1 s uid hres hg hq1 hnoline
  have hadd2 := addItemToCart_increment pid q2 (addItemToCart pid q1 s).2 uid
    ⟨uid, pid, q1⟩ hres1 hg1 (by omega) hline1 (by dsimp only; omega)
  refine ⟨by rw [hadd1], by rw [hadd2], ?_⟩
  exact findCartLine_after_increment pid q2 (addItemToCart pid q1 s).2 uid
    ⟨uid, pid, q1⟩ hres1 hg1 hq2 hline1 hq1

/-- Witness for C2: joe adds 2 then 3 units of product 1 on the seeded
store; the line ends at 5. -/
theorem add_twice_accumulates_witness :
    (getLoggedInUserId demoState = some 1 ∧ productActiveExists 1 demoState = true ∧
        userExists 1 demoState = true ∧ findCartLine 1 1 demoState = none ∧
        (0 : Int) < 2 ∧ (0 : Int) < 3) ∧
      (addItemToCart 1 2 demoState).1 = .ok 2 ∧
      (addItemToCart 1 3 (addItemToCart 1 2 demoState).2).1 = .ok (2 + 3) ∧
      findCartLine 1 1 (addItemToCart 1 3 (addItemToCart 1 2 demoState).2).2 =
        some ⟨1, 1, 2 + 3⟩ :=
  ⟨⟨by decide, by decide, by decide, by decide, by decide, by decide⟩,
    add_twice_accumulates demoState 1 1 2 3 (by decide) (by decide) (by decide)
      (by decide) (by decide) (by decide)⟩

/-! ## Token rotation -/

theorem countP_map_userid (rows : List LoginStatusRow) (f : LoginStatusRow → LoginStatusRow)
    (hf : ∀ r, (f r).user_id = r.user_id) (u : Nat) :
    (rows.map f).countP (fun r => r.user_id == u) =
      rows.countP (fun r => r.user_id == u) := by
  induction rows with
  | nil => rfl
  | cons r rs ih => simp [List.countP_cons, hf, ih]

theorem upsertLoginStatus_countP (rows : List LoginStatusRow) (w : Nat) (tok : String)
    (h : rows.countP (fun r => r.user_id == w) ≤ 1) :
    (upsertLoginStatus rows w tok).countP (fun r => r.user_id == w) = 1 := by
  unfold upsertLoginStatus
  by_cases hex : rows.any (fun r => r.user_id == w) = true
  · rw [if_pos hex, countP_map_userid]
    · obtain ⟨r, hr, hp⟩ := List.any_eq_true.mp hex
      have hpos : 0 < rows.countP (fun r => r.user_id == w) :=
        List.countP_pos_iff.mpr ⟨r, hr, hp⟩
      omega
    · intro r
      by_cases hw : (r.user_id == w) = true <;> simp [hw]
  · rw [if_neg hex, List.countP_append]
    have h0 : rows.countP (fun r => r.user_id == w) = 0 := by
      rw [List.countP_eq_zero]
      intro r hr hp
      exact hex (List.any_eq_true.mpr ⟨r, hr, hp⟩)
    rw [h0]
    simp [List.countP_cons]

theorem upsert_twice_rotates (rows : List LoginStatusRow) (w : Nat) (t1 t2 : String)
    (hfresh : ∀ r ∈ rows, r.auth_token ≠ t1) (hne : t1 ≠ t2)
    (hcount : rows.countP (fun r => r.user_id == w) ≤ 1) :
    ((upsertLoginStatus (upsertLoginStatus rows w t1) w t2).countP
        (fun r => r.user_id == w) = 1) ∧
      (∀ r ∈ upsertLoginStatus (upsertLoginStatus rows w t1) w t2,
        r.user_id = w → r.auth_token = t2) ∧
      ((upsertLoginStatus (upsertLoginStatus rows w t1) w t2).find?
          (fun r => r.auth_token == t1 && r.status == "LOGGED_IN") = none) := by
  have hc1 : (upsertLoginStatus rows w t1).countP (fun r => r.user_id == w) = 1 :=
    upsertLoginStatus_countP rows w t1 hcount
  refine ⟨upsertLoginStatus_countP _ w t2 (by omega), ?_, ?_⟩
  · intro r hr hw
    rcases upsertLoginStatus_mem _ _ _ r hr with ⟨_, _, ht⟩ | ⟨_, hnw⟩
    · exact ht
    · exact absurd hw hnw
  · rw [List.find?_eq_none]
    intro r hr
    rcases upsertLoginStatus_mem _ _ _ r hr with ⟨_, _, ht⟩ | ⟨hr1, hnw⟩
    · simp [ht, (Ne.symm hne)]
    · rcases upsertLoginStatus_mem _ _ _ r hr1 with ⟨hw, _, _⟩ | ⟨hr0, _⟩
      · exact absurd hw hnw
      · simp [hfresh r hr0]

/-- C3: a second successful login for the same user mints a new token and
replaces the old one: afterwards exactly one `user_login_status` row exists
for that user, it carries the new token `t2`, and looking the old token `t1`
up (the query `_get_logged_in_user_id` would run for it) resolves no
identity.  Freshness of the minted `uuid4()` tokens is the hypotheses
`hfresh` / `hne`; at most one row per user is the table's primary key. -/
theorem double_login_rotates_token (s : AppState) (un pw t1 t2 : String) (w : UserRow)
    (hfind : s.users.find? (fun r => r.username == un) = some w)
    (hpw : w.password = pw)
    (hfresh : ∀ r ∈ s.login_status, r.auth_token ≠ t1)
    (hne : t1 ≠ t2)
    (hcount : s.login_status.countP (fun r => r.user_id == w.user_id) ≤ 1) :
    ((logInUser un pw t2 (logInUser un pw t1 s).2).2.login_status.countP
        (fun r => r.user_id == w.user_id) = 1) ∧
      (∀ r ∈ (logInUser un pw t2 (logInUser un pw t1 s).2).2.login_status,
        r.user_id = w.user_id → r.auth_token = t2) ∧
      lookupToken t1 (logInUser un pw t2 (logInUser un pw t1 s).2).2 = none := by
  have h1 := logInUser_success un pw t1 s w hfind hpw
  have hX : (logInUser un pw t1 s).2.login_status =
      upsertLoginStatus s.login_status w.user_id t1 := by
    rw [congrArg Prod.snd h1]
  have hfind2 : (logInUser un pw t1 s).2.users.find? (fun r => r.username == un) =
      some w := by
    rw [congrArg Prod.snd h1]
    exact hfind
  have h2 := logInUser_success un pw t2 (logInUser un pw t1 s).2 w hfind2 hpw
  have hls : (logInUser un pw t2 (logInUser un pw t1 s).2).2.login_status =
      upsertLoginStatus (upsertLoginStatus s.login_status w.user_id t1) w.user_id t2 := by
    rw [congrArg Prod.snd h2]
    show upsertLoginStatus (logInUser un pw t1 s).2.login_status w.user_id t2 = _
    rw [hX]
  have hcore := upsert_twice_rotates s.login_status w.user_id t1 t2 hfresh hne hcount
  refine ⟨?_, ?_, ?_⟩
  · rw [hls]; exact hcore.1
  · rw [hls]; exact hcore.2.1
  · unfold lookupToken
    rw [hls, hcore.2.2]
    rfl

/-- Witness for C3: joe logs in twice on the seeded store with fresh tokens
"t1" then "t2". -/
theorem double_login_rotates_token_witness :
    (demoState.users.find? (fun r => r.username == "joe") = some ⟨1, "joe", "admin1234"⟩ ∧
        (⟨1, "joe", "admin1234"⟩ : UserRow).password = "admin1234" ∧
        (∀ r ∈ demoState.login_status, r.auth_token ≠ "t1") ∧ "t1" ≠ "t2" ∧
        demoState.login_status.countP (fun r => r.user_id == 1) ≤ 1) ∧
      ((logInUser "joe" "admin1234" "t2"
            (logInUser "joe" "admin1234" "t1" demoState).2).2.login_status.countP
          (fun r => r.user_id == 1) = 1) ∧
      lookupToken "t1"
          (logInUser "joe" "admin1234" "t2"
            (logInUser "joe" "admin1234" "t1" demoState).2).2 = none :=
  ⟨⟨by decide, rfl, by decide, by decide, by decide⟩,
    (double_login_rotates_token demoState "joe" "admin1234" "t1" "t2" ⟨1, "joe", "admin1234"⟩
        (by decide) rfl (by decide) (by decide) (by decide)).1,
    (double_login_rotates_token demoState "joe" "admin1234" "t1" "t2" ⟨1, "joe", "admin1234"⟩
        (by decide) rfl (by decide) (by decide) (by decide)).2.2⟩

/-! ## Branch equations for `remove_item_from_cart` and `update_item_in_cart` -/

theorem removeItemFromCart_anonymous (pid : Nat) (s : AppState)
    (h : getLoggedInUserId s = none) :
    removeItemFromCart pid s = (.notLoggedIn, s) := by
  unfold removeItemFromCart; rw [h]

theorem removeItemFromCart_hit (pid : Nat) (s : AppState) (uid : Nat)
    (h : getLoggedInUserId s = some uid)
    (hc : 0 < s.active_carts.countP (fun l => l.user_id == uid && l.product_id == pid)) :
    removeItemFromCart pid s =
      (.removed,
        { s with active_carts :=
            s.active_carts.filter (fun l => !(l.user_id == uid && l.product_id == pid)) }) := by
  unfold removeItemFromCart
  rw [h]
  dsimp only
  rw [if_pos hc]

theorem removeItemFromCart_miss_state (pid : Nat) (s : AppState) (uid : Nat)
    (h : getLoggedInUserId s = some uid)
    (hc : ¬ 0 < s.active_carts.countP (fun l => l.user_id == uid && l.product_id == pid)) :
    removeItemFromCart pid s =
      (.noop,
        { s with active_carts :=
            s.active_carts.filter (fun l => !(l.user_id == uid && l.product_id == pid)) }) := by
  unfold removeItemFromCart
  rw [h]
  dsimp only
  rw [if_neg hc]

theorem removeItemFromCart_miss (pid : Nat) (s : AppState) (uid : Nat)
    (h : getLoggedInUserId s = some uid)
    (hline : findCartLine uid pid s = none) :
    removeItemFromCart pid s = (.noop, s) := by
  unfold findCartLine at hline
  rw [List.find?_eq_none] at hline
  have hall : ∀ l ∈ s.active_carts,
      (!(l.user_id == uid && l.product_id == pid)) = true := by
    intro l hl
    have h1 := hline l hl
    cases hA : (l.user_id == uid) <;> cases hB : (l.product_id == pid) <;> simp_all
  have hc : s.active_carts.countP
      (fun l => l.user_id == uid && l.product_id == pid) = 0 := by
    rw [List.countP_eq_zero]
    intro l hl
    have h1 := hall l hl
    cases hA : (l.user_id == uid) <;> cases hB : (l.product_id == pid) <;> simp_all
  rw [removeItemFromCart_miss_state pid s uid h (by omega)]
  rw [List.filter_eq_self.mpr hall]

theorem updateItemInCart_anonymous (pid : Nat) (q : Int) (s : AppState)
    (h : getLoggedInUserId s = none) :
    updateItemInCart pid q s = (.notLoggedIn, s) := by
  unfold updateItemInCart; rw [h]

theorem updateItemInCart_too_small (pid : Nat) (q : Int) (s : AppState) (uid : Nat)
    (h : getLoggedInUserId s = some uid) (hq : q < 1) :
    updateItemInCart pid q s = (.quantityTooSmall, s) := by
  unfold updateItemInCart
  rw [h]
  dsimp only
  rw [if_pos hq]

theorem updateItemInCart_miss (pid : Nat) (q : Int) (s : AppState) (uid : Nat)
    (h : getLoggedInUserId s = some uid) (hq : ¬ q < 1)
    (hline : findCartLine uid pid s = none) :
    updateItemInCart pid q s = (.noop, s) := by
  unfold updateItemInCart
  rw [h]
  dsimp only
  rw [if_neg hq, hline]

theorem updateItemInCart_hit (pid : Nat) (q : Int) (s : AppState) (uid : Nat)
    (l : CartLine)
    (h : getLoggedInUserId s = some uid) (hq : ¬ q < 1)
    (hline : findCartLine uid pid s = some l) :
    updateItemInCart pid q s =
      (.updated q,
        { s with active_carts := s.active_carts.map (fun c =>
            if c.user_id == uid && c.product_id == pid then { c with quantity := q }
            else c) }) := by
  unfold updateItemInCart
  rw [h]
  dsimp only
  rw [if_neg hq, hline]

/-- C7 counterexample: user 1 is logged in, product 1 is inactive, and a cart
line (1, 1, 2) exists; `update(1, 5)` nonetheless mutates the line to
quantity 5 and reports success, so "an inactive product is not an eligible
target ... for all three operations" is false for `update`. -/
theorem inactive_product_gate_counterexample :
    productActiveExists 1 inactiveLineState = false ∧
      getLoggedInUserId inactiveLineState = some 1 ∧
      (updateItemInCart 1 5 inactiveLineState).1 = .updated 5 ∧
      (updateItemInCart 1 5 inactiveLineState).2.active_carts = [⟨1, 1, 5⟩] := by
  refine ⟨by decide, by decide, by decide, by decide⟩

/-- C7 amended: only `add` gates on the product being present and active
(and the user existing): it then affects no line and reports the rejection.
`remove` and `update` do not consult the product at all; when no cart line
exists for the pair — in particular for a product that does not exist, which
can have no line by the foreign key — they affect nothing and report a
no-op, but an existing line of an inactive product is still mutated. -/
theorem inactive_product_gate_amended (s : AppState) (uid pid : Nat) (q : Int)
    (hres : getLoggedInUserId s = some uid)
    (hg : (productActiveExists pid s && userExists uid s) = false) :
    addItemToCart pid q s = (.rejected, s) ∧
      (findCartLine uid pid s = none →
        removeItemFromCart pid s = (.noop, s) ∧
          (1 ≤ q → updateItemInCart pid q s = (.noop, s))) := by
  refine ⟨addItemToCart_gate_rejects pid q s uid hres hg, fun hline => ⟨?_, fun hq => ?_⟩⟩
  · exact removeItemFromCart_miss pid s uid hres hline
  · exact updateItemInCart_miss pid q s uid hres (by omega) hline

/-- Witness for C7 amended: product 2 is inactive on the seeded store. -/
theorem inactive_product_gate_amended_witness :
    (getLoggedInUserId demoState = some 1 ∧
        (productActiveExists 2 demoState && userExists 1 demoState) = false ∧
        findCartLine 1 2 demoState = none ∧ (1 : Int) ≤ 5) ∧
      addItemToCart 2 5 demoState = (.rejected, demoState) ∧
      removeItemFromCart 2 demoState = (.noop, demoState) ∧
      updateItemInCart 2 5 demoState = (.noop, demoState) :=
  ⟨⟨by decide, by decide, by decide, by decide⟩,
    (inactive_product_gate_amended demoState 1 2 5 (by decide) (by decide)).1,
    ((inactive_product_gate_amended demoState 1 2 5 (by decide) (by decide)).2
      (by decide)).1,
    ((inactive_product_gate_amended demoState 1 2 5 (by decide) (by decide)).2
      (by decide)).2 (by decide)⟩

/-! ## Positivity of cart quantities -/

theorem addItemToCart_increment_check_violation (pid : Nat) (q : Int) (s : AppState)
    (uid : Nat) (l : CartLine)
    (h : getLoggedInUserId s = some uid)
    (hg : (productActiveExists pid s && userExists uid s) = true)
    (hq : ¬ q ≤ 0) (hline : findCartLine uid pid s = some l)
    (hlq : l.quantity + q ≤ 0) :
    addItemToCart pid q s = (.checkFailed, s) := by
  unfold addItemToCart
  rw [h]
  dsimp only
  rw [if_pos hg, if_neg hq, hline]
  dsimp only
  rw [if_pos hlq]

theorem addItemToCart_preserves_positive (pid : Nat) (q : Int) (s : AppState)
    (hpos : cartQuantitiesPositive s) :
    cartQuantitiesPositive (addItemToCart pid q s).2 := by
  cases hres : getLoggedInUserId s with
  | none => rw [addItemToCart_anonymous pid q s hres]; exact hpos
  | some uid =>
    by_cases hg : (productActiveExists pid s && userExists uid s) = true
    · by_cases hq : q ≤ 0
      · rw [addItemToCart_check_violation pid q s uid hres hg hq]; exact hpos
      · cases hline : findCartLine uid pid s with
        | none =>
          rw [addItemToCart_new_line pid q s uid hres hg (by omega) hline]
          intro l hl
          rcases List.mem_append.mp hl with h | h
          · exact hpos l h
          · rw [List.mem_singleton.mp h]
            dsimp only
            omega
        | some l0 =>
          have hl0 : 0 < l0.quantity := hpos l0 (List.mem_of_find?_eq_some hline)
          rw [addItemToCart_increment pid q s uid l0 hres hg (by omega) hline (by omega)]
          intro l hl
          obtain ⟨c, hc, rfl⟩ := List.mem_map.mp hl
          by_cases hk : (c.user_id == uid && c.product_id == pid) = true
          · rw [if_pos hk]
            have := hpos c hc
            dsimp only
            omega
          · rw [if_neg hk]
            exact hpos c hc
    · rw [addItemToCart_gate_rejects pid q s uid hres (by simpa using hg)]
      exact hpos

theorem removeItemFromCart_preserves_positive (pid : Nat) (s : AppState)
    (hpos : cartQuantitiesPositive s) :
    cartQuantitiesPositive (removeItemFromCart pid s).2 := by
  cases hres : getLoggedInUserId s with
  | none => rw [removeItemFromCart_anonymous pid s hres]; exact hpos
  | some uid =>
    by_cases hc : 0 < s.active_carts.countP
        (fun l => l.user_id == uid && l.product_id == pid)
    · rw [removeItemFromCart_hit pid s uid hres hc]
      intro l hl
      exact hpos l (List.mem_of_mem_filter hl)
    · rw [removeItemFromCart_miss_state pid s uid hres hc]
      intro l hl
      exact hpos l (List.mem_of_mem_filter hl)

theorem updateItemInCart_preserves_positive (pid : Nat) (q : Int) (s : AppState)
    (hpos : cartQuantitiesPositive s) :
    cartQuantitiesPositive (updateItemInCart pid q s).2 := by
  cases hres : getLoggedInUserId s with
  | none => rw [updateItemInCart_anonymous pid q s hres]; exact hpos
  | some uid =>
    by_cases hq : q < 1
    · rw [updateItemInCart_too_small pid q s uid hres hq]; exact hpos
    · cases hline : findCartLine uid pid s with
      | none => rw [updateItemInCart_miss pid q s uid hres hq hline]; exact hpos
      | some l0 =>
        rw [updateItemInCart_hit pid q s uid l0 hres hq hline]
        intro l hl
        obtain ⟨c, hc, rfl⟩ := List.mem_map.mp hl
        by_cases hk : (c.user_id == uid && c.product_id == pid) = true
        · rw [if_pos hk]
          dsimp only
          omega
        · rw [if_neg hk]
          exact hpos c hc

theorem addItemToCart_nonpos_unchanged (pid : Nat) (q : Int) (s : AppState)
    (hq : q ≤ 0) : (addItemToCart pid q s).2 = s := by
  cases hres : getLoggedInUserId s with
  | none => rw [addItemToCart_anonymous pid q s hres]
  | some uid =>
    by_cases hg : (productActiveExists pid s && userExists uid s) = true
    · rw [addItemToCart_check_violation pid q s uid hres hg hq]
    · rw [addItemToCart_gate_rejects pid q s uid hres (by simpa using hg)]

/-- C8 counterexample: with user 1 logged in, product 1 active and a cart
line (1, 1, 2), `add(1, -2)` would drive the quantity to 0; the code does
not delete the line — the candidate row violates the CHECK constraint, the
statement raises `IntegrityError`, the transaction rolls back and the line
survives at quantity 2. -/
theorem drive_to_zero_counterexample :
    findCartLine 1 1 activeLineState = some ⟨1, 1, 2⟩ ∧
      addItemToCart 1 (-2) activeLineState = (.checkFailed, activeLineState) ∧
      findCartLine 1 1 (addItemToCart 1 (-2) activeLineState).2 = some ⟨1, 1, 2⟩ := by
  refine ⟨by decide, by decide, by decide⟩

/-- C8 amended: every cart operation preserves the invariant that stored
quantities are strictly positive; but an `add` whose quantity would create
or drive a line to zero or below is rejected by the store's CHECK
constraint (IntegrityError, rolled back, state unchanged) — the line is not
deleted. -/
theorem cart_quantities_positive_invariant (s : AppState) (pid : Nat) (q : Int)
    (hpos : cartQuantitiesPositive s) :
    cartQuantitiesPositive (addItemToCart pid q s).2 ∧
      cartQuantitiesPositive (removeItemFromCart pid s).2 ∧
      cartQuantitiesPositive (updateItemInCart pid q s).2 ∧
      (q ≤ 0 → (addItemToCart pid q s).2 = s) :=
  ⟨addItemToCart_preserves_positive pid q s hpos,
    removeItemFromCart_preserves_positive pid s hpos,
    updateItemInCart_preserves_positive pid q s hpos,
    fun hq => addItemToCart_nonpos_unchanged pid q s hq⟩

/-- Witness for C8 amended: the amended invariant at the concrete store with
an existing line and quantity -2. -/
theorem cart_quantities_positive_invariant_witness :
    cartQuantitiesPositive activeLineState ∧
      cartQuantitiesPositive (addItemToCart 1 (-2) activeLineState).2 ∧
      ((-2 : Int) ≤ 0 → (addItemToCart 1 (-2) activeLineState).2 = activeLineState) :=
  ⟨by unfold cartQuantitiesPositive; decide,
    (cart_quantities_positive_invariant activeLineState 1 (-2)
      (by unfold cartQuantitiesPositive; decide)).1,
    (cart_quantities_positive_invariant activeLineState 1 (-2)
      (by unfold cartQuantitiesPositive; decide)).2.2.2⟩

/-! ## Composition of adds (store-level serialization) -/

theorem addItemToCart_fixed_tables (pid : Nat) (q : Int) (s : AppState) :
    (addItemToCart pid q s).2.users = s.users ∧
      (addItemToCart pid q s).2.login_status = s.login_status ∧
      (addItemToCart pid q s).2.products = s.products ∧
      (addItemToCart pid q s).2.auth_session_file = s.auth_session_file := by
  cases hres : getLoggedInUserId s with
  | none => rw [addItemToCart_anonymous pid q s hres]; exact ⟨rfl, rfl, rfl, rfl⟩
  | some uid =>
    by_cases hg : (productActiveExists pid s && userExists uid s) = true
    · by_cases hq : q ≤ 0
      · rw [addItemToCart_check_violation pid q s uid hres hg hq]
        exact ⟨rfl, rfl, rfl, rfl⟩
      · cases hline : findCartLine uid pid s with
        | none =>
          rw [addItemToCart_new_line pid q s uid hres hg (by omega) hline]
          exact ⟨rfl, rfl, rfl, rfl⟩
        | some l =>
          by_cases hlq : l.quantity + q ≤ 0
          · rw [addItemToCart_increment_check_violation pid q s uid l hres hg hq hline hlq]
            exact ⟨rfl, rfl, rfl, rfl⟩
          · rw [addItemToCart_increment pid q s uid l hres hg (by omega) hline (by omega)]
            exact ⟨rfl, rfl, rfl, rfl⟩
    · rw [addItemToCart_gate_rejects pid q s uid hres (by simpa using hg)]
      exact ⟨rfl, rfl, rfl, rfl⟩

theorem add_context_preserved (pid : Nat) (q : Int) (s : AppState) (uid : Nat)
    (hres : getLoggedInUserId s = some uid)
    (hg : (productActiveExists pid s && userExists uid s) = true)
    (hpos : cartQuantitiesPositive s) :
    getLoggedInUserId (addItemToCart pid q s).2 = some uid ∧
      (productActiveExists pid (addItemToCart pid q s).2 &&
          userExists uid (addItemToCart pid q s).2) = true ∧
      cartQuantitiesPositive (addItemToCart pid q s).2 := by
  obtain ⟨hu, hl, hp, hf⟩ := addItemToCart_fixed_tables pid q s
  refine ⟨?_, ?_, addItemToCart_preserves_positive pid q s hpos⟩
  · rw [getLoggedInUserId_congr s (addItemToCart pid q s).2 hf hl]
    exact hres
  · unfold productActiveExists userExists
    rw [hp, hu]
    exact hg

theorem cartQuantity_after_add (pid : Nat) (q : Int) (s : AppState) (uid : Nat)
    (hres : getLoggedInUserId s = some uid)
    (hg : (productActiveExists pid s && userExists uid s) = true)
    (hq : 0 < q) (hpos : cartQuantitiesPositive s) :
    cartQuantity uid pid (addItemToCart pid q s).2 = cartQuantity uid pid s + q := by
  cases hline : findCartLine uid pid s with
  | none =>
    unfold cartQuantity
    rw [findCartLine_after_new_line pid q s uid hres hg hq hline, hline]
    dsimp only
    omega
  | some l =>
    have hl := hpos l (List.mem_of_find?_eq_some hline)
    unfold cartQuantity
    rw [findCartLine_after_increment pid q s uid l hres hg hq hline hl, hline]

/-- C9: concurrent `add(P, q1)` / `add(P, q2)` invocations are each a single
atomic statement executed in one transaction, so the store serializes them;
in either serialization order the line's final quantity is the prior
quantity plus both additions — no update is lost and none is applied
twice. -/
theorem concurrent_adds_no_lost_update (s : AppState) (uid pid : Nat) (q1 q2 : Int)
    (hres : getLoggedInUserId s = some uid)
    (hprod : productActiveExists pid s = true)
    (huser : userExists uid s = true)
    (hpos : cartQuantitiesPositive s)
    (hq1 : 0 < q1) (hq2 : 0 < q2) :
    cartQuantity uid pid (addItemToCart pid q2 (addItemToCart pid q1 s).2).2 =
        cartQuantity uid pid s + q1 + q2 ∧
      cartQuantity uid pid (addItemToCart pid q1 (addItemToCart pid q2 s).2).2 =
        cartQuantity uid pid s + q1 + q2 := by
  have hg : (productActiveExists pid s && userExists uid s) = true := by
    rw [hprod, huser]; rfl
  constructor
  · obtain ⟨hres1, hg1, hpos1⟩ := add_context_preserved pid q1 s uid hres hg hpos
    rw [cartQuantity_after_add pid q2 (addItemToCart pid q1 s).2 uid hres1 hg1 hq2 hpos1,
      cartQuantity_after_add pid q1 s uid hres hg hq1 hpos]
  · obtain ⟨hres2, hg2, hpos2⟩ := add_context_preserved pid q2 s uid hres hg hpos
    rw [cartQuantity_after_add pid q1 (addItemToCart pid q2 s).2 uid hres2 hg2 hq1 hpos2,
      cartQuantity_after_add pid q2 s uid hres hg hq2 hpos]
    omega

/-- Witness for C9: both serialization orders of adding 2 and 3 units of
product 1 starting from an existing line of 2 end at quantity 7. -/
theorem concurrent_adds_no_lost_update_witness :
    (getLoggedInUserId activeLineState = some 1 ∧
        productActiveExists 1 activeLineState = true ∧
        userExists 1 activeLineState = true ∧
        cartQuantitiesPositive activeLineState ∧ (0 : Int) < 2 ∧ (0 : Int) < 3) ∧
      cartQuantity 1 1 (addItemToCart 1 3 (addItemToCart 1 2 activeLineState).2).2 =
          cartQuantity 1 1 activeLineState + 2 + 3 ∧
      cartQuantity 1 1 (addItemToCart 1 2 (addItemToCart 1 3 activeLineState).2).2 =
          cartQuantity 1 1 activeLineState + 2 + 3 :=
  ⟨⟨by decide, by decide, by decide, by unfold cartQuantitiesPositive; decide,
      by decide, by decide⟩,
    (concurrent_adds_no_lost_update activeLineState 1 1 2 3 (by decide) (by decide)
        (by decide) (by unfold cartQuantitiesPositive; decide) (by decide) (by decide)).1,
    (concurrent_adds_no_lost_update activeLineState 1 1 2 3 (by decide) (by decide)
        (by decide) (by unfold cartQuantitiesPositive; decide) (by decide) (by decide)).2⟩

/-! ## Frame: cart operations touch only their own line -/

theorem filter_not_map_key {α : Type} (p : α → Bool) (g : α → α) (l : List α)
    (hg : ∀ x, p (g x) = p x) :
    (l.map (fun x => if p x then g x else x)).filter (fun x => !(p x)) =
      l.filter (fun x => !(p x)) := by
  induction l with
  | nil => rfl
  | cons x xs ih =>
    cases hx : p x with
    | true =>
      rw [List.map_cons, if_pos hx, List.filter_cons, List.filter_cons,
        if_neg (by simp [hg x, hx]), if_neg (by simp [hx])]
      exact ih
    | false =>
      rw [List.map_cons, if_neg (by simp [hx]), List.filter_cons, List.filter_cons,
        if_pos (by simp [hx]), if_pos (by simp [hx])]
      rw [ih]

theorem filter_not_append_key {α : Type} (p : α → Bool) (l : List α) (x : α)
    (hx : p x = true) :
    (l ++ [x]).filter (fun y => !(p y)) = l.filter (fun y => !(p y)) := by
  rw [List.filter_append, List.filter_cons]
  rw [if_neg (by simp [hx])]
  simp

theorem addItemToCart_frame (pid : Nat) (q : Int) (s : AppState) (uid : Nat)
    (hres : getLoggedInUserId s = some uid) :
    framePreserved uid pid s (addItemToCart pid q s).2 := by
  by_cases hg : (productActiveExists pid s && userExists uid s) = true
  · by_cases hq : q ≤ 0
    · rw [addItemToCart_check_violation pid q s uid hres hg hq]
      exact ⟨rfl, rfl, rfl, rfl, rfl⟩
    · cases hline : findCartLine uid pid s with
      | none =>
        rw [addItemToCart_new_line pid q s uid hres hg (by omega) hline]
        refine ⟨rfl, rfl, rfl, rfl, ?_⟩
        dsimp only
        exact filter_not_append_key
          (fun l : CartLine => l.user_id == uid && l.product_id == pid)
          s.active_carts ⟨uid, pid, q⟩ (by simp)
      | some l =>
        by_cases hlq : l.quantity + q ≤ 0
        · rw [addItemToCart_increment_check_violation pid q s uid l hres hg hq hline hlq]
          exact ⟨rfl, rfl, rfl, rfl, rfl⟩
        · rw [addItemToCart_increment pid q s uid l hres hg hq hline hlq]
          refine ⟨rfl, rfl, rfl, rfl, ?_⟩
          dsimp only
          exact filter_not_map_key
            (fun l : CartLine => l.user_id == uid && l.product_id == pid)
            (fun c : CartLine => { c with quantity := c.quantity + q })
            s.active_carts (fun x => rfl)
  · rw [addItemToCart_gate_rejects pid q s uid hres (by simpa using hg)]
    exact ⟨rfl, rfl, rfl, rfl, rfl⟩

theorem removeItemFromCart_frame (pid : Nat) (s : AppState) (uid : Nat)
    (hres : getLoggedInUserId s = some uid) :
    framePreserved uid pid s (removeItemFromCart pid s).2 := by
  by_cases hc : 0 < s.active_carts.countP
      (fun l => l.user_id == uid && l.product_id == pid)
  · rw [removeItemFromCart_hit pid s uid hres hc]
    refine ⟨rfl, rfl, rfl, rfl, ?_⟩
    dsimp only
    exact List.filter_eq_self.mpr (fun a ha => (List.mem_filter.mp ha).2)
  · rw [removeItemFromCart_miss_state pid s uid hres hc]
    refine ⟨rfl, rfl, rfl, rfl, ?_⟩
    dsimp only
    exact List.filter_eq_self.mpr (fun a ha => (List.mem_filter.mp ha).2)

theorem updateItemInCart_frame (pid : Nat) (q : Int) (s : AppState) (uid : Nat)
    (hres : getLoggedInUserId s = some uid) :
    framePreserved uid pid s (updateItemInCart pid q s).2 := by
  by_cases hq : q < 1
  · rw [updateItemInCart_too_small pid q s uid hres hq]
    exact ⟨rfl, rfl, rfl, rfl, rfl⟩
  · cases hline : findCartLine uid pid s with
    | none =>
      rw [updateItemInCart_miss pid q s uid hres hq hline]
      exact ⟨rfl, rfl, rfl, rfl, rfl⟩
    | some l =>
      rw [updateItemInCart_hit pid q s uid l hres hq hline]
      refine ⟨rfl, rfl, rfl, rfl, ?_⟩
      dsimp only
      exact filter_not_map_key
        (fun l : CartLine => l.user_id == uid && l.product_id == pid)
        (fun c : CartLine => { c with quantity := q })
        s.active_carts (fun x => rfl)

/-- C10: for a logged-in user `uid`, each cart operation on product `pid`
can change at most the single cart line keyed `(uid, pid)`: the `users`,
`products` and `user_login_status` tables, the session file, and every cart
line with a different key are unchanged — whether the operation succeeds, is
rejected, raises a constraint error, or is a no-op. -/
theorem cart_ops_touch_only_own_line (s : AppState) (uid pid : Nat) (q : Int)
    (hres : getLoggedInUserId s = some uid) :
    framePreserved uid pid s (addItemToCart pid q s).2 ∧
      framePreserved uid pid s (removeItemFromCart pid s).2 ∧
      framePreserved uid pid s (updateItemInCart pid q s).2 :=
  ⟨addItemToCart_frame pid q s uid hres,
    removeItemFromCart_frame pid s uid hres,
    updateItemInCart_frame pid q s uid hres⟩

/-- Witness for C10: the frame property at the seeded store with an existing
line, updating product 1 to 7 units. -/
theorem cart_ops_touch_only_own_line_witness :
    getLoggedInUserId activeLineState = some 1 ∧
      framePreserved 1 1 activeLineState (addItemToCart 1 7 activeLineState).2 ∧
      framePreserved 1 1 activeLineState (updateItemInCart 1 7 activeLineState).2 :=
  ⟨by decide,
    (cart_ops_touch_only_own_line activeLineState 1 1 7 (by decide)).1,
    (cart_ops_touch_only_own_line activeLineState 1 1 7 (by decide)).2.2⟩

end Shop
